import Mathlib

/-
Verification development for the libuvc_ros camera driver
(src/libuvc_camera/src/camera_driver.cpp).

The C++ driver is shallowly embedded as pure Lean functions:
  - machine integers become Int/Nat, with explicit `% 2^32` where the C++
    code computes in 32-bit unsigned arithmetic (the sensor_msgs image
    fields width/height/step are uint32);
  - C++ `double` configuration fields (such as exposure_absolute) are
    modelled as exact rationals; a C cast `(int)x` becomes truncation
    toward zero (for every concrete value used by the claims the double
    computation is exact, so the rational model agrees with the code);
  - the external device/transport layer (libuvc) is an oracle `Device`
    recording whether an open attempt succeeds and which control writes
    the device accepts; the format-conversion routines are an oracle
    `ConvOracle`;
  - side effects on the device (closes, opens, control writes, publishes,
    buffer allocations) are made observable as an explicit event trace;
  - C `assert` failures are modelled by returning `none` from the
    function that would abort.
-/

namespace LibuvcCamera

/-- Driver lifecycle states, from `CameraDriver::State` in the source:
`kInitial` (no context), `kStopped` (context, no device), `kRunning`
(device open and streaming). -/
inductive State where
  | kInitial
  | kStopped
  | kRunning
deriving DecidableEq, Repr

/-- Frame/colour formats of the external libuvc library that the driver
mentions (`UVC_FRAME_FORMAT_*` / the `UVC_COLOR_FORMAT_*` aliases). -/
inductive UvcFrameFormat where
  | uncompressed
  | compressed
  | yuyv
  | uyvy
  | rgb
  | bgr
  | mjpeg
  | gray8
  | gray16
deriving DecidableEq, Repr

/-- Status classes of the libuvc control-change callback
(`enum uvc_status_class`). -/
inductive UvcStatusClass where
  | control
  | controlCamera
  | controlProcessing
deriving DecidableEq, Repr

/-- Status attributes of the libuvc control-change callback
(`enum uvc_status_attribute`). -/
inductive UvcStatusAttribute where
  | valueChange
  | infoChange
  | failureChange
  | unknownAttr
deriving DecidableEq, Repr

/-- libuvc camera-terminal control selector for absolute exposure time
(`UVC_CT_EXPOSURE_TIME_ABSOLUTE_CONTROL = 0x04`). -/
def UVC_CT_EXPOSURE_TIME_ABSOLUTE_CONTROL : Int := 4

/-- libuvc processing-unit control selector for white-balance temperature
(`UVC_PU_WHITE_BALANCE_TEMPERATURE_CONTROL = 0x0A`). -/
def UVC_PU_WHITE_BALANCE_TEMPERATURE_CONTROL : Int := 10

/-- The dynamic-reconfigure configuration snapshot `UVCCameraConfig`,
with exactly the fields the driver source reads or writes.  Integer
fields are C `int`; `exposure_absolute` is a C `double`, modelled as an
exact rational; `auto_focus` is a bool. -/
@[ext]
structure UVCCameraConfig where
  vendor : String
  product : String
  serial : String
  index : Int
  width : Int
  height : Int
  frame_rate : Int
  video_mode : String
  frame_id : String
  camera_info_url : String
  scanning_mode : Int
  auto_exposure : Int
  auto_exposure_priority : Int
  exposure_absolute : ℚ
  auto_focus : Bool
  focus_absolute : Int
  gain : Int
  iris_absolute : Int
  brightness : Int
  pan_absolute : Int
  tilt_absolute : Int
  white_balance_temperature : Int
deriving DecidableEq, Repr

/-- The named integer controls the driver writes through `uvc_set_*`
(one constructor per `uvc_set_<fn>` used by `ReconfigureCallback`;
pan/tilt are a single coupled call `uvc_set_pantilt_abs`). -/
inductive Ctrl where
  | scanning_mode
  | ae_mode
  | ae_priority
  | exposure_abs
  | focus_auto
  | focus_abs
  | gain
  | iris_abs
  | brightness
deriving DecidableEq, Repr

/-- Observable effects of the driver on its collaborators: device
close/open, camera-info reload, control writes, context release, output
buffer allocation (the `image->data.resize` call), publish, and the
dirty-flag push back to the configuration server. -/
inductive Event where
  | closeCamera
  | openCamera (ok : Bool)
  | loadCameraInfo (url : String)
  | setCtrl (c : Ctrl) (v : Int)
  | setPantilt (pan tilt : Int)
  | uvcExit
  | allocBytes (n : Nat)
  | publish
  | updateConfig
deriving DecidableEq, Repr

/-- Oracle for the external device: whether the whole
find/open/negotiate/start-streaming sequence of `OpenCamera` succeeds,
and which control writes the device accepts (`uvc_set_*` returning 0). -/
structure Device where
  openOk : Bool
  accept : Ctrl → Int → Bool
  acceptPantilt : Int → Int → Bool

/-- The mutable state of a `CameraDriver` object: lifecycle state, the
context / device / device-handle resources (held or not), the scratch
conversion frame (with its byte size) and the configuration snapshot
plus dirty flag, and the constructor-time `creation_` latch. -/
structure Driver where
  state : State
  ctx : Bool
  dev : Bool
  devh : Bool
  rgb_frame : Option Int
  config : UVCCameraConfig
  config_changed : Bool
  creation : Bool
deriving DecidableEq, Repr

/-- C cast `(int)q` of a (rational-modelled) double: truncation toward
zero. -/
def cIntOfQ (q : ℚ) : Int := q.num.tdiv q.den

/-- C++ conversion of an `int` value to `uint32_t` (reduction modulo
2^32), as happens when the driver assigns snapshot width/height into the
uint32 fields of the outgoing image message. -/
def u32 (i : Int) : Nat := (i % (2 ^ 32 : Int)).toNat

/-- `memcpy` of a source byte list into a freshly `resize`d vector of
`size` zero-initialised bytes: the first `src.length` bytes are the
source, the rest stay zero; the vector length stays `size`. -/
def copyInto (size : Nat) (src : List Nat) : List Nat :=
  src.take size ++ List.replicate (size - src.length) 0

/-- Reading byte `i` of a raw payload (`uint8_t*` indexing). -/
def byteAt (l : List Nat) (i : Nat) : Nat := (l.getD i 0) % 256

theorem copyInto_length (size : Nat) (src : List Nat) :
    (copyInto size src).length = size := by
  simp only [copyInto, List.length_append, List.length_take, List.length_replicate]
  omega

theorem copyInto_of_length_eq (size : Nat) (src : List Nat)
    (h : src.length = size) : copyInto size src = src := by
  simp [copyInto, h, List.take_of_length_le]

/-- `CameraDriver::GetVideoMode`: maps a video-mode string to a libuvc
colour format; any unrecognised string falls back to the uncompressed
format (with a warning log). -/
def GetVideoMode (vmode : String) : UvcFrameFormat :=
  if vmode = "uncompressed" then UvcFrameFormat.uncompressed
  else if vmode = "compressed" then UvcFrameFormat.compressed
  else if vmode = "yuyv" then UvcFrameFormat.yuyv
  else if vmode = "uyvy" then UvcFrameFormat.uyvy
  else if vmode = "rgb" then UvcFrameFormat.rgb
  else if vmode = "bgr" then UvcFrameFormat.bgr
  else if vmode = "mjpeg" then UvcFrameFormat.mjpeg
  else if vmode = "gray8" then UvcFrameFormat.gray8
  else UvcFrameFormat.uncompressed

/-- `CameraDriver::CloseCamera`: closes the device handle, unreferences
the device, and moves to `kStopped`.  (The source asserts
`state_ == kRunning` on entry; the driver only calls it in that state.) -/
def CloseCamera (d : Driver) : Driver :=
  { d with devh := false, dev := false, state := State.kStopped }

/-- `CameraDriver::OpenCamera`: find/open the device, register the
status callback, negotiate the stream format, start streaming, and
(re)allocate the scratch frame of `width*height*3` bytes.  The external
outcome of the whole sequence is the oracle bit `dev.openOk`; every
failure path unwinds and leaves the driver in `kStopped` with the
configuration snapshot untouched. -/
def OpenCamera (dev : Device) (d : Driver) (nc : UVCCameraConfig) :
    Driver × List Event :=
  if dev.openOk then
    ({ d with state := State.kRunning, dev := true, devh := true,
               rgb_frame := some (nc.width * nc.height * 3) },
     [Event.openCamera true])
  else
    (d, [Event.openCamera false])

/-- One `PARAM_INT(scanning_mode, scanning_mode, new_config.scanning_mode)`
expansion: if the field changed, attempt the device write; on rejection
revert the field in the pending snapshot. -/
def param_scanning_mode (dev : Device) (old : UVCCameraConfig)
    (s : UVCCameraConfig × List Event) : UVCCameraConfig × List Event :=
  if s.1.scanning_mode ≠ old.scanning_mode then
    let v : Int := s.1.scanning_mode
    if dev.accept Ctrl.scanning_mode v then
      (s.1, s.2 ++ [Event.setCtrl Ctrl.scanning_mode v])
    else
      ({ s.1 with scanning_mode := old.scanning_mode },
       s.2 ++ [Event.setCtrl Ctrl.scanning_mode v])
  else s

/-- `PARAM_INT(auto_exposure, ae_mode, 1 << new_config.auto_exposure)`:
the written value is the bit `1 << mode` (for the nonnegative modes the
config admits). -/
def param_auto_exposure (dev : Device) (old : UVCCameraConfig)
    (s : UVCCameraConfig × List Event) : UVCCameraConfig × List Event :=
  if s.1.auto_exposure ≠ old.auto_exposure then
    let v : Int := 2 ^ s.1.auto_exposure.toNat
    if dev.accept Ctrl.ae_mode v then
      (s.1, s.2 ++ [Event.setCtrl Ctrl.ae_mode v])
    else
      ({ s.1 with auto_exposure := old.auto_exposure },
       s.2 ++ [Event.setCtrl Ctrl.ae_mode v])
  else s

/-- `PARAM_INT(auto_exposure_priority, ae_priority, ...)`. -/
def param_auto_exposure_priority (dev : Device) (old : UVCCameraConfig)
    (s : UVCCameraConfig × List Event) : UVCCameraConfig × List Event :=
  if s.1.auto_exposure_priority ≠ old.auto_exposure_priority then
    let v : Int := s.1.auto_exposure_priority
    if dev.accept Ctrl.ae_priority v then
      (s.1, s.2 ++ [Event.setCtrl Ctrl.ae_priority v])
    else
      ({ s.1 with auto_exposure_priority := old.auto_exposure_priority },
       s.2 ++ [Event.setCtrl Ctrl.ae_priority v])
  else s

/-- `PARAM_INT(exposure_absolute, exposure_abs,
new_config.exposure_absolute * 10000)`: the double is scaled to
ten-thousandths of a second and truncated to `int`. -/
def param_exposure_absolute (dev : Device) (old : UVCCameraConfig)
    (s : UVCCameraConfig × List Event) : UVCCameraConfig × List Event :=
  if s.1.exposure_absolute ≠ old.exposure_absolute then
    let v : Int := cIntOfQ (s.1.exposure_absolute * 10000)
    if dev.accept Ctrl.exposure_abs v then
      (s.1, s.2 ++ [Event.setCtrl Ctrl.exposure_abs v])
    else
      ({ s.1 with exposure_absolute := old.exposure_absolute },
       s.2 ++ [Event.setCtrl Ctrl.exposure_abs v])
  else s

/-- `PARAM_INT(auto_focus, focus_auto, new_config.auto_focus ? 1 : 0)`. -/
def param_auto_focus (dev : Device) (old : UVCCameraConfig)
    (s : UVCCameraConfig × List Event) : UVCCameraConfig × List Event :=
  if s.1.auto_focus ≠ old.auto_focus then
    let v : Int := if s.1.auto_focus then 1 else 0
    if dev.accept Ctrl.focus_auto v then
      (s.1, s.2 ++ [Event.setCtrl Ctrl.focus_auto v])
    else
      ({ s.1 with auto_focus := old.auto_focus },
       s.2 ++ [Event.setCtrl Ctrl.focus_auto v])
  else s

/-- `PARAM_INT(focus_absolute, focus_abs, ...)`. -/
def param_focus_absolute (dev : Device) (old : UVCCameraConfig)
    (s : UVCCameraConfig × List Event) : UVCCameraConfig × List Event :=
  if s.1.focus_absolute ≠ old.focus_absolute then
    let v : Int := s.1.focus_absolute
    if dev.accept Ctrl.focus_abs v then
      (s.1, s.2 ++ [Event.setCtrl Ctrl.focus_abs v])
    else
      ({ s.1 with focus_absolute := old.focus_absolute },
       s.2 ++ [Event.setCtrl Ctrl.focus_abs v])
  else s

/-- `PARAM_INT(gain, gain, ...)`. -/
def param_gain (dev : Device) (old : UVCCameraConfig)
    (s : UVCCameraConfig × List Event) : UVCCameraConfig × List Event :=
  if s.1.gain ≠ old.gain then
    let v : Int := s.1.gain
    if dev.accept Ctrl.gain v then
      (s.1, s.2 ++ [Event.setCtrl Ctrl.gain v])
    else
      ({ s.1 with gain := old.gain }, s.2 ++ [Event.setCtrl Ctrl.gain v])
  else s

/-- `PARAM_INT(iris_absolute, iris_abs, ...)`. -/
def param_iris_absolute (dev : Device) (old : UVCCameraConfig)
    (s : UVCCameraConfig × List Event) : UVCCameraConfig × List Event :=
  if s.1.iris_absolute ≠ old.iris_absolute then
    let v : Int := s.1.iris_absolute
    if dev.accept Ctrl.iris_abs v then
      (s.1, s.2 ++ [Event.setCtrl Ctrl.iris_abs v])
    else
      ({ s.1 with iris_absolute := old.iris_absolute },
       s.2 ++ [Event.setCtrl Ctrl.iris_abs v])
  else s

/-- `PARAM_INT(brightness, brightness, ...)`. -/
def param_brightness (dev : Device) (old : UVCCameraConfig)
    (s : UVCCameraConfig × List Event) : UVCCameraConfig × List Event :=
  if s.1.brightness ≠ old.brightness then
    let v : Int := s.1.brightness
    if dev.accept Ctrl.brightness v then
      (s.1, s.2 ++ [Event.setCtrl Ctrl.brightness v])
    else
      ({ s.1 with brightness := old.brightness },
       s.2 ++ [Event.setCtrl Ctrl.brightness v])
  else s

/-- The coupled pan/tilt block: one `uvc_set_pantilt_abs` call when
either field changed; rejection reverts both. -/
def param_pantilt (dev : Device) (old : UVCCameraConfig)
    (s : UVCCameraConfig × List Event) : UVCCameraConfig × List Event :=
  if s.1.pan_absolute ≠ old.pan_absolute ∨
     s.1.tilt_absolute ≠ old.tilt_absolute then
    if dev.acceptPantilt s.1.pan_absolute s.1.tilt_absolute then
      (s.1, s.2 ++ [Event.setPantilt s.1.pan_absolute s.1.tilt_absolute])
    else
      ({ s.1 with pan_absolute := old.pan_absolute,
                  tilt_absolute := old.tilt_absolute },
       s.2 ++ [Event.setPantilt s.1.pan_absolute s.1.tilt_absolute])
  else s

/-- The full control-write block of `ReconfigureCallback` (the sequence
of `PARAM_INT` expansions followed by the pan/tilt block), threading the
pending snapshot `nc` through each per-field write-and-maybe-revert; the
old baseline `old` is `config_`. -/
def applyControls (dev : Device) (old : UVCCameraConfig)
    (nc : UVCCameraConfig) : UVCCameraConfig × List Event :=
  param_pantilt dev old
    (param_brightness dev old
      (param_iris_absolute dev old
        (param_gain dev old
          (param_focus_absolute dev old
            (param_auto_focus dev old
              (param_exposure_absolute dev old
                (param_auto_exposure_priority dev old
                  (param_auto_exposure dev old
                    (param_scanning_mode dev old (nc, []))))))))))

/-- Modelled from the spec: the header that defines the reconfigure
level masks is not among the available sources.  The spec describes the
configuration source as supporting "a boolean mask bit indicating
stream parameters changed, requires reopen"; `kReconfigureClose` is
that mask, tested by the source as
`(level & kReconfigureClose) == kReconfigureClose`. -/
def kReconfigureClose : Nat := 3

/-- `CameraDriver::ReconfigureCallback(new_config, level)`: during
construction (`creation_`) just record the snapshot; otherwise close the
camera if the level requires renegotiation while running, try to open if
stopped, reload calibration info if the URL changed, and if running push
the changed control fields (reverting rejected ones) and commit the
resulting snapshot as the new baseline. -/
def ReconfigureCallback (dev : Device) (d : Driver)
    (new_config : UVCCameraConfig) (level : Nat) : Driver × List Event :=
  if d.creation then ({ d with config := new_config }, [])
  else
    let s1 : Driver × List Event :=
      if level &&& kReconfigureClose = kReconfigureClose then
        if d.state = State.kRunning then (CloseCamera d, [Event.closeCamera])
        else (d, [])
      else (d, [])
    let s2 : Driver × List Event :=
      if s1.1.state = State.kStopped then OpenCamera dev s1.1 new_config
      else (s1.1, [])
    let evs3 : List Event :=
      if new_config.camera_info_url ≠ s2.1.config.camera_info_url then
        [Event.loadCameraInfo new_config.camera_info_url]
      else []
    if s2.1.state = State.kRunning then
      let p := applyControls dev s2.1.config new_config
      ({ s2.1 with config := p.1 }, s1.2 ++ s2.2 ++ evs3 ++ p.2)
    else
      (s2.1, s1.2 ++ s2.2 ++ evs3)

/-- `CameraDriver::Stop`: asserts the state is not `kInitial` (modelled
as `none` — the process aborts, releasing nothing), closes the camera if
running, releases the context, and returns to `kInitial`. -/
def Stop (d : Driver) : Option (Driver × List Event) :=
  if d.state = State.kInitial then none
  else
    let s1 : Driver × List Event :=
      if d.state = State.kRunning then (CloseCamera d, [Event.closeCamera])
      else (d, [])
    if s1.1.state = State.kStopped then
      some ({ s1.1 with ctx := false, state := State.kInitial },
            s1.2 ++ [Event.uvcExit])
    else none

/-- A captured frame as handed to `ImageCallback`: the raw payload
(`none` models a NULL data pointer; `data_bytes` is the list length) and
the declared frame format. -/
structure UvcFrame where
  data : Option (List Nat)
  frame_format : UvcFrameFormat
deriving DecidableEq, Repr

/-- The outgoing `sensor_msgs::Image`: `width`, `height`, `step` are its
uint32 fields (values already reduced mod 2^32), plus encoding string,
payload and frame id.  (The wall-clock timestamp is not modelled.) -/
structure SensorImage where
  width : Nat
  height : Nat
  step : Nat
  encoding : String
  data : List Nat
  frame_id : String
deriving DecidableEq, Repr

/-- Oracle for the libuvc conversion routines used by `ImageCallback`
(`uvc_yuyv2bgr`, `uvc_mjpeg2rgb`, `uvc_any2bgr`; `none` is a conversion
error) and for whether the library was built with JPEG support
(`LIBUVC_HAS_JPEG`). -/
structure ConvOracle where
  hasJpeg : Bool
  yuyv2bgr : List Nat → Option (List Nat)
  mjpeg2rgb : List Nat → Option (List Nat)
  any2bgr : List Nat → Option (List Nat)

/-- The conversion branch of `ImageCallback`: BGR, RGB and UYVY frames
are copied into the freshly resized buffer of `size` bytes unchanged
(with their encoding labels), YUYV goes through `uvc_yuyv2bgr`, MJPEG
through `uvc_mjpeg2rgb` when the library has JPEG support, and anything
else through `uvc_any2bgr`; a conversion failure (`none`) makes the
caller drop the frame. -/
def convertFrame (co : ConvOracle) (size : Nat) (fmt : UvcFrameFormat)
    (bytes : List Nat) : Option (String × List Nat) :=
  if fmt = UvcFrameFormat.bgr then
    some ("bgr8", copyInto size bytes)
  else if fmt = UvcFrameFormat.rgb then
    some ("rgb8", copyInto size bytes)
  else if fmt = UvcFrameFormat.uyvy then
    some ("yuv422", copyInto size bytes)
  else if fmt = UvcFrameFormat.yuyv then
    match co.yuyv2bgr bytes with
    | none => none
    | some conv => some ("bgr8", copyInto size conv)
  else if co.hasJpeg = true ∧ fmt = UvcFrameFormat.mjpeg then
    match co.mjpeg2rgb bytes with
    | none => none
    | some conv => some ("rgb8", copyInto size conv)
  else
    match co.any2bgr bytes with
    | none => none
    | some conv => some ("bgr8", copyInto size conv)

/-- `CameraDriver::ImageCallback(frame)`.  Result `none` models an
`assert` abort (frame while not running, or no scratch frame); otherwise
the result carries the updated driver, the published image (if any) and
the event trace.  The width/height/step/size arithmetic is the uint32
arithmetic of the sensor_msgs image fields. -/
def ImageCallback (co : ConvOracle) (d : Driver) (frame : UvcFrame) :
    Option (Driver × Option SensorImage × List Event) :=
  match frame.data with
  | none => some (d, none, [])
  | some bytes =>
    if d.state ≠ State.kRunning then none
    else if d.rgb_frame = none then none
    else if d.config.width = 0 ∨ d.config.height = 0 then some (d, none, [])
    else
      let w : Nat := u32 d.config.width
      let h : Nat := u32 d.config.height
      let step : Nat := w * 3 % 2 ^ 32
      let size : Nat := step * h % 2 ^ 32
      if size > 1920 * 1080 * 3 then some (d, none, [])
      else
        match convertFrame co size frame.frame_format bytes with
        | none => some (d, none, [Event.allocBytes size])
        | some (enc, dat) =>
          let img : SensorImage :=
            { width := w, height := h, step := step, encoding := enc,
              data := dat, frame_id := d.config.frame_id }
          if d.config_changed then
            some ({ d with config_changed := false }, some img,
                  [Event.allocBytes size, Event.publish, Event.updateConfig])
          else
            some (d, some img, [Event.allocBytes size, Event.publish])

/-- `CameraDriver::AutoControlsCallback`: on a `VALUE_CHANGE` event for
a recognised (class, selector) pair, decode the little-endian payload
into the corresponding snapshot field and set the dirty flag; every
other event leaves the driver untouched.  (`exposure_int * 0.0001` on
doubles is modelled as multiplication by the exact rational 1/10000.) -/
def AutoControlsCallback (d : Driver) (status_class : UvcStatusClass)
    (_ev : Int) (selector : Int) (attr : UvcStatusAttribute)
    (data : List Nat) : Driver :=
  if attr = UvcStatusAttribute.valueChange then
    match status_class with
    | UvcStatusClass.controlCamera =>
      if selector = UVC_CT_EXPOSURE_TIME_ABSOLUTE_CONTROL then
        let exposure_int : Nat :=
          byteAt data 0 + byteAt data 1 * 2 ^ 8 +
          byteAt data 2 * 2 ^ 16 + byteAt data 3 * 2 ^ 24
        { d with
          config := { d.config with
                      exposure_absolute := (exposure_int : ℚ) * (1 / 10000) },
          config_changed := true }
      else d
    | UvcStatusClass.controlProcessing =>
      if selector = UVC_PU_WHITE_BALANCE_TEMPERATURE_CONTROL then
        { d with
          config := { d.config with
                      white_balance_temperature :=
                        (byteAt data 0 + byteAt data 1 * 2 ^ 8 : Int) },
          config_changed := true }
      else d
    | UvcStatusClass.control => d
  else d

/-- Whether an event is a control write to the device (a `uvc_set_*`
call from the control-sync block). -/
def isCtrlWrite : Event → Bool
  | Event.setCtrl _ _ => true
  | Event.setPantilt _ _ => true
  | _ => false

/-- A benign configuration snapshot used as the base of the concrete
witnesses and counterexamples. -/
def cfg0 : UVCCameraConfig :=
  { vendor := "0x0", product := "0x0", serial := "", index := 0,
    width := 640, height := 480, frame_rate := 30,
    video_mode := "uncompressed", frame_id := "cam", camera_info_url := "",
    scanning_mode := 0, auto_exposure := 1, auto_exposure_priority := 0,
    exposure_absolute := 1 / 100, auto_focus := false, focus_absolute := 0,
    gain := 0, iris_absolute := 0, brightness := 0,
    pan_absolute := 0, tilt_absolute := 0,
    white_balance_temperature := 4000 }

/-- A device oracle that opens successfully and accepts every control
write. -/
def devAccept : Device :=
  { openOk := true, accept := fun _ _ => true,
    acceptPantilt := fun _ _ => true }

/-- A device oracle whose open sequence fails (device absent or any
later stage failing); control writes would be accepted. -/
def devNoOpen : Device :=
  { openOk := false, accept := fun _ _ => true,
    acceptPantilt := fun _ _ => true }

/-- A conversion oracle with no JPEG support whose conversion routines
all fail; the pass-through paths never consult it. -/
def co0 : ConvOracle :=
  { hasJpeg := false, yuyv2bgr := fun _ => none,
    mjpeg2rgb := fun _ => none, any2bgr := fun _ => none }

/-- C10: `GetVideoMode` is total over all video-mode strings: each of
the eight recognised strings maps to its format constant, and every
other string maps to the uncompressed format as a silent fallback. -/
theorem getVideoMode_total_with_fallback :
    GetVideoMode "uncompressed" = UvcFrameFormat.uncompressed ∧
    GetVideoMode "compressed" = UvcFrameFormat.compressed ∧
    GetVideoMode "yuyv" = UvcFrameFormat.yuyv ∧
    GetVideoMode "uyvy" = UvcFrameFormat.uyvy ∧
    GetVideoMode "rgb" = UvcFrameFormat.rgb ∧
    GetVideoMode "bgr" = UvcFrameFormat.bgr ∧
    GetVideoMode "mjpeg" = UvcFrameFormat.mjpeg ∧
    GetVideoMode "gray8" = UvcFrameFormat.gray8 ∧
    ∀ s : String,
      s ∉ (["uncompressed", "compressed", "yuyv", "uyvy", "rgb", "bgr",
            "mjpeg", "gray8"] : List String) →
      GetVideoMode s = UvcFrameFormat.uncompressed := by
  refine ⟨rfl, rfl, rfl, rfl, rfl, rfl, rfl, rfl, ?_⟩
  intro s hs
  simp only [List.mem_cons, List.not_mem_nil, or_false, not_or] at hs
  obtain ⟨h1, h2, h3, h4, h5, h6, h7, h8⟩ := hs
  simp [GetVideoMode, h1, h2, h3, h4, h5, h6, h7, h8]

/-- Witness for C10: the unrecognised string "nv12" falls back to the
uncompressed format. -/
theorem getVideoMode_total_with_fallback_witness :
    GetVideoMode "nv12" = UvcFrameFormat.uncompressed :=
  getVideoMode_total_with_fallback.2.2.2.2.2.2.2.2 "nv12" (by decide)

/-- C5: a VALUE_CHANGE event of the camera control class with the
absolute-exposure selector and raw payload bytes 0x10 0x27 0x00 0x00
(little-endian 10000) sets the snapshot's `exposure_absolute` to 1 and
the dirty flag, and changes nothing else in the driver. -/
theorem autoControls_exposure_event (d : Driver) (ev : Int) :
    AutoControlsCallback d UvcStatusClass.controlCamera ev
        UVC_CT_EXPOSURE_TIME_ABSOLUTE_CONTROL UvcStatusAttribute.valueChange
        [16, 39, 0, 0] =
      { d with config := { d.config with exposure_absolute := 1 },
               config_changed := true } := by
  simp only [AutoControlsCallback, byteAt, List.getD, if_true]
  norm_num

/-- C9: calling `Stop` while `kInitial` (in particular a second
consecutive `Stop`) hits the contract assertion and releases nothing;
calling it in any other state closes the device first when running,
always releases the context, and ends in `kInitial`. -/
theorem stop_contract (d : Driver) :
    (d.state = State.kInitial → Stop d = none) ∧
    (d.state ≠ State.kInitial →
      Stop d = some
        ({ d with state := State.kInitial, ctx := false,
                  dev := if d.state = State.kRunning then false else d.dev,
                  devh := if d.state = State.kRunning then false else d.devh },
         (if d.state = State.kRunning then [Event.closeCamera] else []) ++
           [Event.uvcExit])) := by
  cases hd : d.state <;> simp [Stop, CloseCamera, hd]

/-- A driver back in `kInitial` after a full stop (as a second `Stop`
would find it). -/
def drvInitial : Driver :=
  { state := State.kInitial, ctx := false, dev := false, devh := false,
    rgb_frame := none, config := cfg0, config_changed := false,
    creation := false }

/-- A driver holding the context but with no device open. -/
def drvStopped : Driver :=
  { state := State.kStopped, ctx := true, dev := false, devh := false,
    rgb_frame := none, config := cfg0, config_changed := false,
    creation := false }

/-- Witness for C9: a `Stop` from `kInitial` fails fast with no events,
and a `Stop` from `kStopped` releases the context and returns to
`kInitial`. -/
theorem stop_contract_witness :
    Stop drvInitial = none ∧
    Stop drvStopped = some
      ({ drvStopped with state := State.kInitial, ctx := false,
                         dev := if drvStopped.state = State.kRunning
                                then false else drvStopped.dev,
                         devh := if drvStopped.state = State.kRunning
                                 then false else drvStopped.devh },
       (if drvStopped.state = State.kRunning
        then [Event.closeCamera] else []) ++ [Event.uvcExit]) :=
  ⟨(stop_contract drvInitial).1 rfl,
   (stop_contract drvStopped).2 (by decide)⟩

/-- C8: a frame arriving while the snapshot's width or height is zero is
dropped: the callback returns with the driver unchanged, publishing
nothing and performing no allocation. -/
theorem imageCallback_zero_dims (co : ConvOracle) (d : Driver)
    (frame : UvcFrame) (hs : d.state = State.kRunning)
    (hr : d.rgb_frame ≠ none)
    (hz : d.config.width = 0 ∨ d.config.height = 0) :
    ImageCallback co d frame = some (d, none, []) := by
  cases hfd : frame.data <;> simp [ImageCallback, hfd, hs, hr, hz]

/-- Witness for C8: a concrete BGR frame arriving while the snapshot
width is zero is dropped with the driver unchanged. -/
theorem imageCallback_zero_dims_witness :
    ImageCallback co0
      { state := State.kRunning, ctx := true, dev := true, devh := true,
        rgb_frame := some 0, config := { cfg0 with width := 0 },
        config_changed := false, creation := false }
      { data := some [1, 2, 3], frame_format := UvcFrameFormat.bgr } =
      some ({ state := State.kRunning, ctx := true, dev := true,
              devh := true, rgb_frame := some 0,
              config := { cfg0 with width := 0 },
              config_changed := false, creation := false }, none, []) :=
  imageCallback_zero_dims co0 _ _ rfl (by decide) (by decide)

theorem convertFrame_length (co : ConvOracle) (size : Nat)
    (fmt : UvcFrameFormat) (bytes : List Nat) (enc : String)
    (dat : List Nat) (h : convertFrame co size fmt bytes = some (enc, dat)) :
    dat.length = size := by
  unfold convertFrame at h
  repeat' split at h
  all_goals first
    | (obtain ⟨-, rfl⟩ := h; exact copyInto_length _ _)
    | simp_all

theorem convertFrame_bgr (co : ConvOracle) (size : Nat)
    (bytes : List Nat) :
    convertFrame co size UvcFrameFormat.bgr bytes =
      some ("bgr8", copyInto size bytes) := by
  simp [convertFrame]

theorem dims_arith (w h : Int) (hw : 0 < w) (hh : 0 < h)
    (hb : w * 3 * h ≤ 1920 * 1080 * 3) :
    u32 w = w.toNat ∧ u32 h = h.toNat ∧
    w.toNat * 3 % 2 ^ 32 = w.toNat * 3 ∧
    w.toNat * 3 * h.toNat % 2 ^ 32 = w.toNat * 3 * h.toNat ∧
    w.toNat * 3 * h.toNat ≤ 1920 * 1080 * 3 := by
  obtain ⟨a, rfl⟩ : ∃ a : Nat, w = (a : Int) :=
    ⟨w.toNat, (Int.toNat_of_nonneg hw.le).symm⟩
  obtain ⟨b, rfl⟩ : ∃ b : Nat, h = (b : Int) :=
    ⟨h.toNat, (Int.toNat_of_nonneg hh.le).symm⟩
  have ha : 0 < a := by exact_mod_cast hw
  have hbpos : 0 < b := by exact_mod_cast hh
  have hab : a * 3 * b ≤ 1920 * 1080 * 3 := by exact_mod_cast hb
  have h1 : a * 3 ≤ a * 3 * b := Nat.le_mul_of_pos_right _ hbpos
  have h2 : b ≤ a * 3 * b := by
    calc b = 1 * b := (Nat.one_mul b).symm
    _ ≤ a * 3 * b := Nat.mul_le_mul_right b (by omega)
  have haz : a ≤ 2073600 := by omega
  have hbz : b ≤ 6220800 := by omega
  refine ⟨?_, ?_, ?_, ?_, ?_⟩
  · simp only [u32, Int.toNat_natCast]
    omega
  · simp only [u32, Int.toNat_natCast]
    omega
  · simp only [Int.toNat_natCast]
    omega
  · simp only [Int.toNat_natCast]
    omega
  · simp only [Int.toNat_natCast]
    omega

/-- C1: while running with the scratch frame allocated, for a snapshot
with positive width and height whose output size `width*3*height` is
within the 1920*1080*3 ceiling, whatever image `ImageCallback`
publishes has a payload of exactly `width*height*3` bytes and a row
stride of exactly `width*3`. -/
theorem imageCallback_published_dims (co : ConvOracle) (d : Driver)
    (frame : UvcFrame) (hw : 0 < d.config.width)
    (hh : 0 < d.config.height)
    (hb : d.config.width * 3 * d.config.height ≤ 1920 * 1080 * 3) :
    ∀ d2 img evs, ImageCallback co d frame = some (d2, some img, evs) →
      (img.data.length : Int) = d.config.width * d.config.height * 3 ∧
      (img.step : Int) = d.config.width * 3 := by
  intro d2 img evs heq
  obtain ⟨h1, h2, h3, h4, h5⟩ :=
    dims_arith d.config.width d.config.height hw hh hb
  have hwn : (d.config.width.toNat : Int) = d.config.width :=
    Int.toNat_of_nonneg hw.le
  have hhn : (d.config.height.toNat : Int) = d.config.height :=
    Int.toNat_of_nonneg hh.le
  obtain ⟨fdata, ffmt⟩ := frame
  cases fdata with
  | none => simp [ImageCallback] at heq
  | some bytes =>
    simp only [ImageCallback] at heq
    rw [h1, h2, h3] at heq
    split at heq
    · exact absurd heq (by simp)
    split at heq
    · exact absurd heq (by simp)
    split at heq
    · simp at heq
    split at heq
    · simp at heq
    rename_i hsz
    rw [h4] at heq hsz
    split at heq
    · simp at heq
    rename_i enc dat hconv
    have hlen : dat.length = d.config.width.toNat * 3 * d.config.height.toNat :=
      convertFrame_length co _ ffmt bytes enc dat hconv
    split at heq <;>
    · simp only [Option.some.injEq, Prod.mk.injEq] at heq
      obtain ⟨-, himg, -⟩ := heq
      subst himg
      constructor
      · simp only [hlen]
        push_cast [hwn, hhn]
        ring
      · simp only []
        push_cast [hwn, hhn]
        ring

/-- A running driver with a 2x2 snapshot, used by the concrete frame
witnesses. -/
def drvRun : Driver :=
  { state := State.kRunning, ctx := true, dev := true, devh := true,
    rgb_frame := some 12, config := { cfg0 with width := 2, height := 2 },
    config_changed := false, creation := false }

/-- A 12-byte BGR payload filling the 2x2x3 buffer exactly. -/
def bytes12 : List Nat := [1, 2, 3, 4, 5, 6, 7, 8, 9, 10, 11, 12]

/-- Witness for C1: the 2x2 BGR frame is published with a 12-byte
payload and step 6. -/
theorem imageCallback_published_dims_witness :
    ((({ width := 2, height := 2, step := 6, encoding := "bgr8",
         data := bytes12, frame_id := "cam" } : SensorImage).data.length : Int) =
       drvRun.config.width * drvRun.config.height * 3 ∧
     ((({ width := 2, height := 2, step := 6, encoding := "bgr8",
          data := bytes12, frame_id := "cam" } : SensorImage).step : Int) =
       drvRun.config.width * 3)) :=
  imageCallback_published_dims co0 drvRun
    { data := some bytes12, frame_format := UvcFrameFormat.bgr }
    (by decide) (by decide) (by decide) drvRun
    { width := 2, height := 2, step := 6, encoding := "bgr8",
      data := bytes12, frame_id := "cam" }
    [Event.allocBytes 12, Event.publish] rfl

/-- C6 (amended): a BGR frame whose payload length equals the computed
buffer size `width*height*3` is passed through byte-for-byte: the
published payload is byte-identical to the input and labelled "bgr8".
(Without the length premise the `memcpy` into the freshly resized buffer
leaves zero padding behind a shorter payload, so the published payload
is not byte-identical — see the counterexample.) -/
theorem imageCallback_bgr_byte_identical (co : ConvOracle) (d : Driver)
    (frame : UvcFrame) (bs : List Nat) (hfd : frame.data = some bs)
    (hfmt : frame.frame_format = UvcFrameFormat.bgr)
    (hw : 0 < d.config.width) (hh : 0 < d.config.height)
    (hb : d.config.width * 3 * d.config.height ≤ 1920 * 1080 * 3)
    (hlen : (bs.length : Int) = d.config.width * d.config.height * 3) :
    ∀ d2 img evs, ImageCallback co d frame = some (d2, some img, evs) →
      img.data = bs ∧ img.encoding = "bgr8" := by
  intro d2 img evs heq
  obtain ⟨h1, h2, h3, h4, h5⟩ :=
    dims_arith d.config.width d.config.height hw hh hb
  have hwn : (d.config.width.toNat : Int) = d.config.width :=
    Int.toNat_of_nonneg hw.le
  have hhn : (d.config.height.toNat : Int) = d.config.height :=
    Int.toNat_of_nonneg hh.le
  have hlenNat : bs.length =
      d.config.width.toNat * 3 * d.config.height.toNat := by
    have hcast : ((bs.length : Int)) =
        ((d.config.width.toNat * 3 * d.config.height.toNat : Nat) : Int) := by
      rw [hlen]
      push_cast [hwn, hhn]
      ring
    exact_mod_cast hcast
  obtain ⟨fdata, ffmt⟩ := frame
  simp only at hfd hfmt
  subst hfd
  subst hfmt
  simp only [ImageCallback] at heq
  rw [h1, h2, h3] at heq
  split at heq
  · exact absurd heq (by simp)
  split at heq
  · exact absurd heq (by simp)
  split at heq
  · simp at heq
  split at heq
  · simp at heq
  rw [h4] at heq
  split at heq
  · simp at heq
  rename_i enc dat hconv
  rw [convertFrame_bgr] at hconv
  simp only [Option.some.injEq, Prod.mk.injEq] at hconv
  obtain ⟨henc, hdat⟩ := hconv
  rw [copyInto_of_length_eq _ _ hlenNat] at hdat
  split at heq <;>
  · simp only [Option.some.injEq, Prod.mk.injEq] at heq
    obtain ⟨-, himg, -⟩ := heq
    subst himg
    exact ⟨hdat.symm, henc.symm⟩

/-- Witness for C6 (amended): the full-size 2x2 BGR frame comes out
byte-identical with label "bgr8". -/
theorem imageCallback_bgr_byte_identical_witness :
    ({ width := 2, height := 2, step := 6, encoding := "bgr8",
       data := bytes12, frame_id := "cam" } : SensorImage).data = bytes12 ∧
    ({ width := 2, height := 2, step := 6, encoding := "bgr8",
       data := bytes12, frame_id := "cam" } : SensorImage).encoding =
      "bgr8" :=
  imageCallback_bgr_byte_identical co0 drvRun
    { data := some bytes12, frame_format := UvcFrameFormat.bgr } bytes12
    rfl rfl (by decide) (by decide) (by decide) (by decide) drvRun
    { width := 2, height := 2, step := 6, encoding := "bgr8",
      data := bytes12, frame_id := "cam" }
    [Event.allocBytes 12, Event.publish] rfl

/-- A running driver with a 1x1 snapshot. -/
def drvTiny : Driver :=
  { state := State.kRunning, ctx := true, dev := true, devh := true,
    rgb_frame := some 3, config := { cfg0 with width := 1, height := 1 },
    config_changed := false, creation := false }

/-- Counterexample for C6 as stated: a BGR frame with the 1-byte payload
`[7]` against a 1x1 snapshot publishes the 3-byte payload `[7, 0, 0]`
(the resized buffer with its zero padding), which is not byte-identical
to the input payload. -/
theorem imageCallback_bgr_not_byte_identical :
    ImageCallback co0 drvTiny
        { data := some [7], frame_format := UvcFrameFormat.bgr } =
      some (drvTiny,
            some { width := 1, height := 1, step := 3, encoding := "bgr8",
                   data := [7, 0, 0], frame_id := "cam" },
            [Event.allocBytes 3, Event.publish]) ∧
    ([7, 0, 0] : List Nat) ≠ [7] :=
  ⟨rfl, by decide⟩

/-- C7 (amended): a frame arriving while running with the scratch frame
allocated is dropped — with the driver unchanged, nothing allocated and
nothing published — whenever the output byte size as the code computes
it, in 32-bit unsigned arithmetic ((width*3 mod 2^32)*height mod 2^32),
exceeds 1920*1080*3.  (When `width*3*height` overflows 32 bits the
wrapped value can fall back under the ceiling and the frame is then NOT
dropped — see the counterexample.) -/
theorem imageCallback_oversize_wrapped_drop (co : ConvOracle) (d : Driver)
    (frame : UvcFrame) (hs : d.state = State.kRunning)
    (hr : d.rgb_frame ≠ none)
    (hb : u32 d.config.width * 3 % 2 ^ 32 * u32 d.config.height % 2 ^ 32 >
      1920 * 1080 * 3) :
    ImageCallback co d frame = some (d, none, []) := by
  obtain ⟨fdata, ffmt⟩ := frame
  cases fdata with
  | none => simp [ImageCallback]
  | some bytes =>
    by_cases hz : d.config.width = 0 ∨ d.config.height = 0
    · simp [ImageCallback, hs, hr, hz]
    · simp only [ImageCallback]
      rw [if_neg (by simp [hs]), if_neg (by simp [hr]), if_neg hz,
          if_pos hb]

/-- A snapshot slightly beyond full HD in both dimensions. -/
def cfgBig : UVCCameraConfig := { cfg0 with width := 1921, height := 1081 }

/-- A running driver with the oversize snapshot `cfgBig`. -/
def drvBig : Driver := { drvRun with rgb_frame := some 3, config := cfgBig }

/-- Witness for C7 (amended): a 1921x1081 snapshot computes 6229803
bytes (no 32-bit overflow), above the ceiling, so the frame is dropped
with no allocation. -/
theorem imageCallback_oversize_wrapped_drop_witness :
    ImageCallback co0 drvBig
        { data := some [9, 9], frame_format := UvcFrameFormat.bgr } =
      some (drvBig, none, []) :=
  imageCallback_oversize_wrapped_drop co0 drvBig _ rfl (by decide)
    (by decide)

/-- A running driver whose snapshot width makes `width*3` overflow
32 bits (1431655766*3 = 2^32 + 2). -/
def drvWide : Driver :=
  { state := State.kRunning, ctx := true, dev := true, devh := true,
    rgb_frame := some 2,
    config := { cfg0 with width := 1431655766, height := 1 },
    config_changed := false, creation := false }

/-- Counterexample for C7 as stated: with width 1431655766 and height 1
the true output size 1431655766*3 = 4294967298 exceeds 1920*1080*3, yet
the code's 32-bit computation wraps to 2, so the frame is NOT dropped:
a 2-byte buffer is allocated and the frame is published. -/
theorem imageCallback_oversize_unwrapped_publishes :
    (1431655766 * 3 * 1 : Int) > 1920 * 1080 * 3 ∧
    ImageCallback co0 drvWide
        { data := some [9, 9], frame_format := UvcFrameFormat.bgr } =
      some (drvWide,
            some { width := 1431655766, height := 1, step := 2,
                   encoding := "bgr8", data := [9, 9], frame_id := "cam" },
            [Event.allocBytes 2, Event.publish]) :=
  ⟨by decide, rfl⟩

theorem param_scanning_mode_fst (dev : Device) (old : UVCCameraConfig)
    (s : UVCCameraConfig × List Event) :
    (param_scanning_mode dev old s).1 =
      if s.1.scanning_mode ≠ old.scanning_mode ∧
         dev.accept Ctrl.scanning_mode s.1.scanning_mode = false
      then { s.1 with scanning_mode := old.scanning_mode } else s.1 := by
  simp only [param_scanning_mode]
  split_ifs <;> simp_all

theorem param_auto_exposure_fst (dev : Device) (old : UVCCameraConfig)
    (s : UVCCameraConfig × List Event) :
    (param_auto_exposure dev old s).1 =
      if s.1.auto_exposure ≠ old.auto_exposure ∧
         dev.accept Ctrl.ae_mode (2 ^ s.1.auto_exposure.toNat) = false
      then { s.1 with auto_exposure := old.auto_exposure } else s.1 := by
  simp only [param_auto_exposure]
  split_ifs <;> simp_all

theorem param_auto_exposure_priority_fst (dev : Device)
    (old : UVCCameraConfig) (s : UVCCameraConfig × List Event) :
    (param_auto_exposure_priority dev old s).1 =
      if s.1.auto_exposure_priority ≠ old.auto_exposure_priority ∧
         dev.accept Ctrl.ae_priority s.1.auto_exposure_priority = false
      then { s.1 with auto_exposure_priority := old.auto_exposure_priority }
      else s.1 := by
  simp only [param_auto_exposure_priority]
  split_ifs <;> simp_all

theorem param_exposure_absolute_fst (dev : Device) (old : UVCCameraConfig)
    (s : UVCCameraConfig × List Event) :
    (param_exposure_absolute dev old s).1 =
      if s.1.exposure_absolute ≠ old.exposure_absolute ∧
         dev.accept Ctrl.exposure_abs
           (cIntOfQ (s.1.exposure_absolute * 10000)) = false
      then { s.1 with exposure_absolute := old.exposure_absolute }
      else s.1 := by
  simp only [param_exposure_absolute]
  split_ifs <;> simp_all

theorem param_auto_focus_fst (dev : Device) (old : UVCCameraConfig)
    (s : UVCCameraConfig × List Event) :
    (param_auto_focus dev old s).1 =
      if s.1.auto_focus ≠ old.auto_focus ∧
         dev.accept Ctrl.focus_auto (if s.1.auto_focus then 1 else 0) = false
      then { s.1 with auto_focus := old.auto_focus } else s.1 := by
  simp only [param_auto_focus]
  split_ifs <;> simp_all

theorem param_focus_absolute_fst (dev : Device) (old : UVCCameraConfig)
    (s : UVCCameraConfig × List Event) :
    (param_focus_absolute dev old s).1 =
      if s.1.focus_absolute ≠ old.focus_absolute ∧
         dev.accept Ctrl.focus_abs s.1.focus_absolute = false
      then { s.1 with focus_absolute := old.focus_absolute } else s.1 := by
  simp only [param_focus_absolute]
  split_ifs <;> simp_all

theorem param_gain_fst (dev : Device) (old : UVCCameraConfig)
    (s : UVCCameraConfig × List Event) :
    (param_gain dev old s).1 =
      if s.1.gain ≠ old.gain ∧ dev.accept Ctrl.gain s.1.gain = false
      then { s.1 with gain := old.gain } else s.1 := by
  simp only [param_gain]
  split_ifs <;> simp_all

theorem param_iris_absolute_fst (dev : Device) (old : UVCCameraConfig)
    (s : UVCCameraConfig × List Event) :
    (param_iris_absolute dev old s).1 =
      if s.1.iris_absolute ≠ old.iris_absolute ∧
         dev.accept Ctrl.iris_abs s.1.iris_absolute = false
      then { s.1 with iris_absolute := old.iris_absolute } else s.1 := by
  simp only [param_iris_absolute]
  split_ifs <;> simp_all

theorem param_brightness_fst (dev : Device) (old : UVCCameraConfig)
    (s : UVCCameraConfig × List Event) :
    (param_brightness dev old s).1 =
      if s.1.brightness ≠ old.brightness ∧
         dev.accept Ctrl.brightness s.1.brightness = false
      then { s.1 with brightness := old.brightness } else s.1 := by
  simp only [param_brightness]
  split_ifs <;> simp_all

theorem param_pantilt_fst (dev : Device) (old : UVCCameraConfig)
    (s : UVCCameraConfig × List Event) :
    (param_pantilt dev old s).1 =
      if (s.1.pan_absolute ≠ old.pan_absolute ∨
          s.1.tilt_absolute ≠ old.tilt_absolute) ∧
         dev.acceptPantilt s.1.pan_absolute s.1.tilt_absolute = false
      then { s.1 with pan_absolute := old.pan_absolute,
                      tilt_absolute := old.tilt_absolute }
      else s.1 := by
  simp only [param_pantilt]
  split_ifs <;> simp_all

set_option maxHeartbeats 3200000 in
theorem applyControls_fst_spec (dev : Device) (old nc : UVCCameraConfig) :
    (applyControls dev old nc).1 =
      { nc with
        scanning_mode :=
          if nc.scanning_mode ≠ old.scanning_mode ∧
             dev.accept Ctrl.scanning_mode nc.scanning_mode = false
          then old.scanning_mode else nc.scanning_mode,
        auto_exposure :=
          if nc.auto_exposure ≠ old.auto_exposure ∧
             dev.accept Ctrl.ae_mode (2 ^ nc.auto_exposure.toNat) = false
          then old.auto_exposure else nc.auto_exposure,
        auto_exposure_priority :=
          if nc.auto_exposure_priority ≠ old.auto_exposure_priority ∧
             dev.accept Ctrl.ae_priority nc.auto_exposure_priority = false
          then old.auto_exposure_priority else nc.auto_exposure_priority,
        exposure_absolute :=
          if nc.exposure_absolute ≠ old.exposure_absolute ∧
             dev.accept Ctrl.exposure_abs
               (cIntOfQ (nc.exposure_absolute * 10000)) = false
          then old.exposure_absolute else nc.exposure_absolute,
        auto_focus :=
          if nc.auto_focus ≠ old.auto_focus ∧
             dev.accept Ctrl.focus_auto
               (if nc.auto_focus then 1 else 0) = false
          then old.auto_focus else nc.auto_focus,
        focus_absolute :=
          if nc.focus_absolute ≠ old.focus_absolute ∧
             dev.accept Ctrl.focus_abs nc.focus_absolute = false
          then old.focus_absolute else nc.focus_absolute,
        gain :=
          if nc.gain ≠ old.gain ∧ dev.accept Ctrl.gain nc.gain = false
          then old.gain else nc.gain,
        iris_absolute :=
          if nc.iris_absolute ≠ old.iris_absolute ∧
             dev.accept Ctrl.iris_abs nc.iris_absolute = false
          then old.iris_absolute else nc.iris_absolute,
        brightness :=
          if nc.brightness ≠ old.brightness ∧
             dev.accept Ctrl.brightness nc.brightness = false
          then old.brightness else nc.brightness,
        pan_absolute :=
          if (nc.pan_absolute ≠ old.pan_absolute ∨
              nc.tilt_absolute ≠ old.tilt_absolute) ∧
             dev.acceptPantilt nc.pan_absolute nc.tilt_absolute = false
          then old.pan_absolute else nc.pan_absolute,
        tilt_absolute :=
          if (nc.pan_absolute ≠ old.pan_absolute ∨
              nc.tilt_absolute ≠ old.tilt_absolute) ∧
             dev.acceptPantilt nc.pan_absolute nc.tilt_absolute = false
          then old.tilt_absolute else nc.tilt_absolute } := by
  have e1 : (param_scanning_mode dev old (nc, ([] : List Event))).1 =
      { nc with
        scanning_mode :=
          if nc.scanning_mode ≠ old.scanning_mode ∧
             dev.accept Ctrl.scanning_mode nc.scanning_mode = false
          then old.scanning_mode else nc.scanning_mode } := by
    rw [param_scanning_mode_fst]
    dsimp only
    split_ifs with h <;> rfl
  have e2 : (param_auto_exposure dev old
      (param_scanning_mode dev old (nc, ([] : List Event)))).1 =
      { nc with
        scanning_mode :=
          if nc.scanning_mode ≠ old.scanning_mode ∧
             dev.accept Ctrl.scanning_mode nc.scanning_mode = false
          then old.scanning_mode else nc.scanning_mode,
        auto_exposure :=
          if nc.auto_exposure ≠ old.auto_exposure ∧
             dev.accept Ctrl.ae_mode (2 ^ nc.auto_exposure.toNat) = false
          then old.auto_exposure else nc.auto_exposure } := by
    rw [param_auto_exposure_fst, e1]
    dsimp only
    split_ifs with h <;> rfl
  have e3 : (param_auto_exposure_priority dev old (param_auto_exposure dev old
      (param_scanning_mode dev old (nc, ([] : List Event))))).1 =
      { nc with
        scanning_mode :=
          if nc.scanning_mode ≠ old.scanning_mode ∧
             dev.accept Ctrl.scanning_mode nc.scanning_mode = false
          then old.scanning_mode else nc.scanning_mode,
        auto_exposure :=
          if nc.auto_exposure ≠ old.auto_exposure ∧
             dev.accept Ctrl.ae_mode (2 ^ nc.auto_exposure.toNat) = false
          then old.auto_exposure else nc.auto_exposure,
        auto_exposure_priority :=
          if nc.auto_exposure_priority ≠ old.auto_exposure_priority ∧
             dev.accept Ctrl.ae_priority nc.auto_exposure_priority = false
          then old.auto_exposure_priority
          else nc.auto_exposure_priority } := by
    rw [param_auto_exposure_priority_fst, e2]
    dsimp only
    split_ifs with h <;> rfl
  have e4 : (param_exposure_absolute dev old (param_auto_exposure_priority
      dev old (param_auto_exposure dev old
      (param_scanning_mode dev old (nc, ([] : List Event)))))).1 =
      { nc with
        scanning_mode :=
          if nc.scanning_mode ≠ old.scanning_mode ∧
             dev.accept Ctrl.scanning_mode nc.scanning_mode = false
          then old.scanning_mode else nc.scanning_mode,
        auto_exposure :=
          if nc.auto_exposure ≠ old.auto_exposure ∧
             dev.accept Ctrl.ae_mode (2 ^ nc.auto_exposure.toNat) = false
          then old.auto_exposure else nc.auto_exposure,
        auto_exposure_priority :=
          if nc.auto_exposure_priority ≠ old.auto_exposure_priority ∧
             dev.accept Ctrl.ae_priority nc.auto_exposure_priority = false
          then old.auto_exposure_priority else nc.auto_exposure_priority,
        exposure_absolute :=
          if nc.exposure_absolute ≠ old.exposure_absolute ∧
             dev.accept Ctrl.exposure_abs
               (cIntOfQ (nc.exposure_absolute * 10000)) = false
          then old.exposure_absolute else nc.exposure_absolute } := by
    rw [param_exposure_absolute_fst, e3]
    dsimp only
    split_ifs with h <;> rfl
  have e5 : (param_auto_focus dev old (param_exposure_absolute dev old
      (param_auto_exposure_priority dev old (param_auto_exposure dev old
      (param_scanning_mode dev old (nc, ([] : List Event))))))).1 =
      { nc with
        scanning_mode :=
          if nc.scanning_mode ≠ old.scanning_mode ∧
             dev.accept Ctrl.scanning_mode nc.scanning_mode = false
          then old.scanning_mode else nc.scanning_mode,
        auto_exposure :=
          if nc.auto_exposure ≠ old.auto_exposure ∧
             dev.accept Ctrl.ae_mode (2 ^ nc.auto_exposure.toNat) = false
          then old.auto_exposure else nc.auto_exposure,
        auto_exposure_priority :=
          if nc.auto_exposure_priority ≠ old.auto_exposure_priority ∧
             dev.accept Ctrl.ae_priority nc.auto_exposure_priority = false
          then old.auto_exposure_priority else nc.auto_exposure_priority,
        exposure_absolute :=
          if nc.exposure_absolute ≠ old.exposure_absolute ∧
             dev.accept Ctrl.exposure_abs
               (cIntOfQ (nc.exposure_absolute * 10000)) = false
          then old.exposure_absolute else nc.exposure_absolute,
        auto_focus :=
          if nc.auto_focus ≠ old.auto_focus ∧
             dev.accept Ctrl.focus_auto
               (if nc.auto_focus then 1 else 0) = false
          then old.auto_focus else nc.auto_focus } := by
    rw [param_auto_focus_fst, e4]
    dsimp only
    split_ifs with h <;> rfl
  have e6 : (param_focus_absolute dev old (param_auto_focus dev old
      (param_exposure_absolute dev old (param_auto_exposure_priority dev old
      (param_auto_exposure dev old
      (param_scanning_mode dev old (nc, ([] : List Event)))))))).1 =
      { nc with
        scanning_mode :=
          if nc.scanning_mode ≠ old.scanning_mode ∧
             dev.accept Ctrl.scanning_mode nc.scanning_mode = false
          then old.scanning_mode else nc.scanning_mode,
        auto_exposure :=
          if nc.auto_exposure ≠ old.auto_exposure ∧
             dev.accept Ctrl.ae_mode (2 ^ nc.auto_exposure.toNat) = false
          then old.auto_exposure else nc.auto_exposure,
        auto_exposure_priority :=
          if nc.auto_exposure_priority ≠ old.auto_exposure_priority ∧
             dev.accept Ctrl.ae_priority nc.auto_exposure_priority = false
          then old.auto_exposure_priority else nc.auto_exposure_priority,
        exposure_absolute :=
          if nc.exposure_absolute ≠ old.exposure_absolute ∧
             dev.accept Ctrl.exposure_abs
               (cIntOfQ (nc.exposure_absolute * 10000)) = false
          then old.exposure_absolute else nc.exposure_absolute,
        auto_focus :=
          if nc.auto_focus ≠ old.auto_focus ∧
             dev.accept Ctrl.focus_auto
               (if nc.auto_focus then 1 else 0) = false
          then old.auto_focus else nc.auto_focus,
        focus_absolute :=
          if nc.focus_absolute ≠ old.focus_absolute ∧
             dev.accept Ctrl.focus_abs nc.focus_absolute = false
          then old.focus_absolute else nc.focus_absolute } := by
    rw [param_focus_absolute_fst, e5]
    dsimp only
    split_ifs with h <;> rfl
  have e7 : (param_gain dev old (param_focus_absolute dev old
      (param_auto_focus dev old (param_exposure_absolute dev old
      (param_auto_exposure_priority dev old (param_auto_exposure dev old
      (param_scanning_mode dev old (nc, ([] : List Event))))))))).1 =
      { nc with
        scanning_mode :=
          if nc.scanning_mode ≠ old.scanning_mode ∧
             dev.accept Ctrl.scanning_mode nc.scanning_mode = false
          then old.scanning_mode else nc.scanning_mode,
        auto_exposure :=
          if nc.auto_exposure ≠ old.auto_exposure ∧
             dev.accept Ctrl.ae_mode (2 ^ nc.auto_exposure.toNat) = false
          then old.auto_exposure else nc.auto_exposure,
        auto_exposure_priority :=
          if nc.auto_exposure_priority ≠ old.auto_exposure_priority ∧
             dev.accept Ctrl.ae_priority nc.auto_exposure_priority = false
          then old.auto_exposure_priority else nc.auto_exposure_priority,
        exposure_absolute :=
          if nc.exposure_absolute ≠ old.exposure_absolute ∧
             dev.accept Ctrl.exposure_abs
               (cIntOfQ (nc.exposure_absolute * 10000)) = false
          then old.exposure_absolute else nc.exposure_absolute,
        auto_focus :=
          if nc.auto_focus ≠ old.auto_focus ∧
             dev.accept Ctrl.focus_auto
               (if nc.auto_focus then 1 else 0) = false
          then old.auto_focus else nc.auto_focus,
        focus_absolute :=
          if nc.focus_absolute ≠ old.focus_absolute ∧
             dev.accept Ctrl.focus_abs nc.focus_absolute = false
          then old.focus_absolute else nc.focus_absolute,
        gain :=
          if nc.gain ≠ old.gain ∧ dev.accept Ctrl.gain nc.gain = false
          then old.gain else nc.gain } := by
    rw [param_gain_fst, e6]
    dsimp only
    split_ifs with h <;> rfl
  have e8 : (param_iris_absolute dev old (param_gain dev old
      (param_focus_absolute dev old (param_auto_focus dev old
      (param_exposure_absolute dev old (param_auto_exposure_priority dev old
      (param_auto_exposure dev old
      (param_scanning_mode dev old (nc, ([] : List Event)))))))))).1 =
      { nc with
        scanning_mode :=
          if nc.scanning_mode ≠ old.scanning_mode ∧
             dev.accept Ctrl.scanning_mode nc.scanning_mode = false
          then old.scanning_mode else nc.scanning_mode,
        auto_exposure :=
          if nc.auto_exposure ≠ old.auto_exposure ∧
             dev.accept Ctrl.ae_mode (2 ^ nc.auto_exposure.toNat) = false
          then old.auto_exposure else nc.auto_exposure,
        auto_exposure_priority :=
          if nc.auto_exposure_priority ≠ old.auto_exposure_priority ∧
             dev.accept Ctrl.ae_priority nc.auto_exposure_priority = false
          then old.auto_exposure_priority else nc.auto_exposure_priority,
        exposure_absolute :=
          if nc.exposure_absolute ≠ old.exposure_absolute ∧
             dev.accept Ctrl.exposure_abs
               (cIntOfQ (nc.exposure_absolute * 10000)) = false
          then old.exposure_absolute else nc.exposure_absolute,
        auto_focus :=
          if nc.auto_focus ≠ old.auto_focus ∧
             dev.accept Ctrl.focus_auto
               (if nc.auto_focus then 1 else 0) = false
          then old.auto_focus else nc.auto_focus,
        focus_absolute :=
          if nc.focus_absolute ≠ old.focus_absolute ∧
             dev.accept Ctrl.focus_abs nc.focus_absolute = false
          then old.focus_absolute else nc.focus_absolute,
        gain :=
          if nc.gain ≠ old.gain ∧ dev.accept Ctrl.gain nc.gain = false
          then old.gain else nc.gain,
        iris_absolute :=
          if nc.iris_absolute ≠ old.iris_absolute ∧
             dev.accept Ctrl.iris_abs nc.iris_absolute = false
          then old.iris_absolute else nc.iris_absolute } := by
    rw [param_iris_absolute_fst, e7]
    dsimp only
    split_ifs with h <;> rfl
  have e9 : (param_brightness dev old (param_iris_absolute dev old
      (param_gain dev old (param_focus_absolute dev old
      (param_auto_focus dev old (param_exposure_absolute dev old
      (param_auto_exposure_priority dev old (param_auto_exposure dev old
      (param_scanning_mode dev old (nc, ([] : List Event))))))))))).1 =
      { nc with
        scanning_mode :=
          if nc.scanning_mode ≠ old.scanning_mode ∧
             dev.accept Ctrl.scanning_mode nc.scanning_mode = false
          then old.scanning_mode else nc.scanning_mode,
        auto_exposure :=
          if nc.auto_exposure ≠ old.auto_exposure ∧
             dev.accept Ctrl.ae_mode (2 ^ nc.auto_exposure.toNat) = false
          then old.auto_exposure else nc.auto_exposure,
        auto_exposure_priority :=
          if nc.auto_exposure_priority ≠ old.auto_exposure_priority ∧
             dev.accept Ctrl.ae_priority nc.auto_exposure_priority = false
          then old.auto_exposure_priority else nc.auto_exposure_priority,
        exposure_absolute :=
          if nc.exposure_absolute ≠ old.exposure_absolute ∧
             dev.accept Ctrl.exposure_abs
               (cIntOfQ (nc.exposure_absolute * 10000)) = false
          then old.exposure_absolute else nc.exposure_absolute,
        auto_focus :=
          if nc.auto_focus ≠ old.auto_focus ∧
             dev.accept Ctrl.focus_auto
               (if nc.auto_focus then 1 else 0) = false
          then old.auto_focus else nc.auto_focus,
        focus_absolute :=
          if nc.focus_absolute ≠ old.focus_absolute ∧
             dev.accept Ctrl.focus_abs nc.focus_absolute = false
          then old.focus_absolute else nc.focus_absolute,
        gain :=
          if nc.gain ≠ old.gain ∧ dev.accept Ctrl.gain nc.gain = false
          then old.gain else nc.gain,
        iris_absolute :=
          if nc.iris_absolute ≠ old.iris_absolute ∧
             dev.accept Ctrl.iris_abs nc.iris_absolute = false
          then old.iris_absolute else nc.iris_absolute,
        brightness :=
          if nc.brightness ≠ old.brightness ∧
             dev.accept Ctrl.brightness nc.brightness = false
          then old.brightness else nc.brightness } := by
    rw [param_brightness_fst, e8]
    dsimp only
    split_ifs with h <;> rfl
  show (param_pantilt dev old (param_brightness dev old
    (param_iris_absolute dev old (param_gain dev old
    (param_focus_absolute dev old (param_auto_focus dev old
    (param_exposure_absolute dev old (param_auto_exposure_priority dev old
    (param_auto_exposure dev old
    (param_scanning_mode dev old (nc, ([] : List Event)))))))))))).1 = _
  rw [param_pantilt_fst, e9]
  dsimp only
  split_ifs with h <;> rfl

theorem reconfigure_config_cases (dev : Device) (d : Driver)
    (nc : UVCCameraConfig) (level : Nat) (hc : d.creation = false) :
    ((ReconfigureCallback dev d nc level).1.state = State.kRunning →
      (ReconfigureCallback dev d nc level).1.config =
        (applyControls dev d.config nc).1) ∧
    ((ReconfigureCallback dev d nc level).1.state ≠ State.kRunning →
      (ReconfigureCallback dev d nc level).1.config = d.config) := by
  by_cases hl : level &&& kReconfigureClose = kReconfigureClose <;>
    cases hst : d.state <;>
    by_cases ho : dev.openOk = true <;>
    simp [ReconfigureCallback, hc, hl, hst, ho, OpenCamera, CloseCamera]


/-- C2 (amended): after an `OnConfigurationChanged` invocation outside
construction, the stored baseline snapshot is replaced by `newConfig`
(with each device-rejected control field reverted to its previous
value) only when the resulting state is Running; when the resulting
state is not Running — e.g. after a failed reopen — the stored snapshot
is left unchanged, because the commit statement sits inside the
running-state block. -/
theorem reconfigure_baseline_commit (dev : Device) (d : Driver)
    (nc : UVCCameraConfig) (level : Nat) (hc : d.creation = false) :
    ((ReconfigureCallback dev d nc level).1.state ≠ State.kRunning →
      (ReconfigureCallback dev d nc level).1.config = d.config) ∧
    ((ReconfigureCallback dev d nc level).1.state = State.kRunning →
      (ReconfigureCallback dev d nc level).1.config =
        { nc with
          scanning_mode :=
            if nc.scanning_mode ≠ d.config.scanning_mode ∧
               dev.accept Ctrl.scanning_mode nc.scanning_mode = false
            then d.config.scanning_mode else nc.scanning_mode,
          auto_exposure :=
            if nc.auto_exposure ≠ d.config.auto_exposure ∧
               dev.accept Ctrl.ae_mode (2 ^ nc.auto_exposure.toNat) = false
            then d.config.auto_exposure else nc.auto_exposure,
          auto_exposure_priority :=
            if nc.auto_exposure_priority ≠ d.config.auto_exposure_priority ∧
               dev.accept Ctrl.ae_priority nc.auto_exposure_priority = false
            then d.config.auto_exposure_priority
            else nc.auto_exposure_priority,
          exposure_absolute :=
            if nc.exposure_absolute ≠ d.config.exposure_absolute ∧
               dev.accept Ctrl.exposure_abs
                 (cIntOfQ (nc.exposure_absolute * 10000)) = false
            then d.config.exposure_absolute else nc.exposure_absolute,
          auto_focus :=
            if nc.auto_focus ≠ d.config.auto_focus ∧
               dev.accept Ctrl.focus_auto
                 (if nc.auto_focus then 1 else 0) = false
            then d.config.auto_focus else nc.auto_focus,
          focus_absolute :=
            if nc.focus_absolute ≠ d.config.focus_absolute ∧
               dev.accept Ctrl.focus_abs nc.focus_absolute = false
            then d.config.focus_absolute else nc.focus_absolute,
          gain :=
            if nc.gain ≠ d.config.gain ∧
               dev.accept Ctrl.gain nc.gain = false
            then d.config.gain else nc.gain,
          iris_absolute :=
            if nc.iris_absolute ≠ d.config.iris_absolute ∧
               dev.accept Ctrl.iris_abs nc.iris_absolute = false
            then d.config.iris_absolute else nc.iris_absolute,
          brightness :=
            if nc.brightness ≠ d.config.brightness ∧
               dev.accept Ctrl.brightness nc.brightness = false
            then d.config.brightness else nc.brightness,
          pan_absolute :=
            if (nc.pan_absolute ≠ d.config.pan_absolute ∨
                nc.tilt_absolute ≠ d.config.tilt_absolute) ∧
               dev.acceptPantilt nc.pan_absolute nc.tilt_absolute = false
            then d.config.pan_absolute else nc.pan_absolute,
          tilt_absolute :=
            if (nc.pan_absolute ≠ d.config.pan_absolute ∨
                nc.tilt_absolute ≠ d.config.tilt_absolute) ∧
               dev.acceptPantilt nc.pan_absolute nc.tilt_absolute = false
            then d.config.tilt_absolute else nc.tilt_absolute }) := by
  refine ⟨(reconfigure_config_cases dev d nc level hc).2, fun h => ?_⟩
  rw [(reconfigure_config_cases dev d nc level hc).1 h,
      applyControls_fst_spec]

/-- Counterexample for C2 as stated: a reconfiguration that closes the
running camera and then fails to reopen (state ends Stopped) does NOT
replace the stored snapshot: the baseline keeps its old value even
though `newConfig` differs (brightness 5 vs 0). -/
theorem reconfigure_failed_reopen_keeps_old_baseline :
    (ReconfigureCallback devNoOpen drvRun
        { drvRun.config with brightness := 5 } 3).1.config =
      drvRun.config ∧
    (ReconfigureCallback devNoOpen drvRun
        { drvRun.config with brightness := 5 } 3).1.state =
      State.kStopped ∧
    drvRun.config ≠ { drvRun.config with brightness := 5 } := by
  refine ⟨rfl, rfl, ?_⟩
  intro h
  have hb := congrArg UVCCameraConfig.brightness h
  simp [drvRun, cfg0] at hb

/-- C3: when `OnConfigurationChanged` runs while Running with a change
mask requiring renegotiation, the device close is the very first
observable action (so it precedes every control write), and if the
reopen fails the state remains Stopped and zero control writes are
issued during the invocation.  (The renegotiation mask constant itself
is modelled from the spec, see `kReconfigureClose`.) -/
theorem reconfigure_close_precedes_writes (dev : Device) (d : Driver)
    (nc : UVCCameraConfig) (level : Nat) (hc : d.creation = false)
    (hs : d.state = State.kRunning)
    (hl : level &&& kReconfigureClose = kReconfigureClose) :
    (ReconfigureCallback dev d nc level).2.head? =
      some Event.closeCamera ∧
    (dev.openOk = false →
      (ReconfigureCallback dev d nc level).1.state = State.kStopped ∧
      (ReconfigureCallback dev d nc level).2.countP isCtrlWrite = 0) := by
  by_cases ho : dev.openOk = true
  · constructor
    · simp [ReconfigureCallback, hc, hs, hl, ho, OpenCamera, CloseCamera]
    · intro hfalse
      rw [hfalse] at ho
      exact absurd ho (by simp)
  · have ho2 : dev.openOk = false := by simpa using ho
    by_cases hurl : nc.camera_info_url = d.config.camera_info_url <;>
      simp [ReconfigureCallback, hc, hs, hl, ho2, hurl, OpenCamera,
        CloseCamera, isCtrlWrite]

/-- C4: an `OnConfigurationChanged` while Running whose snapshot
differs from the baseline only in `exposure_absolute` (0.01 to 0.02,
with no renegotiation mask bit) issues exactly one control write, the
exposure write with integer encoding 200 = trunc(0.02*10000); if the
device accepts it the committed baseline holds 0.02, and if it rejects
it the committed baseline holds the prior 0.01. -/
theorem reconfigure_exposure_only_write (dev : Device) (d : Driver)
    (level : Nat) (hc : d.creation = false)
    (hs : d.state = State.kRunning)
    (hl : ¬level &&& kReconfigureClose = kReconfigureClose)
    (hexp : d.config.exposure_absolute = 1 / 100) :
    (ReconfigureCallback dev d
        { d.config with exposure_absolute := 2 / 100 } level).2.filter
        isCtrlWrite = [Event.setCtrl Ctrl.exposure_abs 200] ∧
    (ReconfigureCallback dev d
        { d.config with exposure_absolute := 2 / 100 }
        level).1.config.exposure_absolute =
      if dev.accept Ctrl.exposure_abs 200 then (2 / 100 : ℚ)
      else 1 / 100 := by
  have hcond : ¬((2 / 100 : ℚ) = d.config.exposure_absolute) := by
    rw [hexp]
    norm_num
  have hv : cIntOfQ ((2 / 100 : ℚ) * 10000) = 200 := by
    have h200 : (2 / 100 : ℚ) * 10000 = 200 := by norm_num
    rw [cIntOfQ, h200]
    rfl
  by_cases ha : dev.accept Ctrl.exposure_abs 200 = true
  · simp [ReconfigureCallback, hc, hs, hl, hcond, hv, ha, applyControls,
      param_scanning_mode, param_auto_exposure, param_auto_exposure_priority,
      param_exposure_absolute, param_auto_focus, param_focus_absolute,
      param_gain, param_iris_absolute, param_brightness, param_pantilt,
      isCtrlWrite]
  · simp [ReconfigureCallback, hc, hs, hl, hcond, hv, ha, applyControls,
      param_scanning_mode, param_auto_exposure, param_auto_exposure_priority,
      param_exposure_absolute, param_auto_focus, param_focus_absolute,
      param_gain, param_iris_absolute, param_brightness, param_pantilt,
      isCtrlWrite]
    simp [hexp]

/-- Witness for C2 (amended): a successful open from Stopped with an
all-accepting device ends Running and commits the snapshot with the
per-field reconciliation applied. -/
theorem reconfigure_baseline_commit_witness :
    (ReconfigureCallback devAccept drvStopped cfg0 0).1.config =
      { cfg0 with
        scanning_mode :=
          if cfg0.scanning_mode ≠ drvStopped.config.scanning_mode ∧
             devAccept.accept Ctrl.scanning_mode cfg0.scanning_mode = false
          then drvStopped.config.scanning_mode else cfg0.scanning_mode,
        auto_exposure :=
          if cfg0.auto_exposure ≠ drvStopped.config.auto_exposure ∧
             devAccept.accept Ctrl.ae_mode
               (2 ^ cfg0.auto_exposure.toNat) = false
          then drvStopped.config.auto_exposure else cfg0.auto_exposure,
        auto_exposure_priority :=
          if cfg0.auto_exposure_priority ≠
               drvStopped.config.auto_exposure_priority ∧
             devAccept.accept Ctrl.ae_priority
               cfg0.auto_exposure_priority = false
          then drvStopped.config.auto_exposure_priority
          else cfg0.auto_exposure_priority,
        exposure_absolute :=
          if cfg0.exposure_absolute ≠ drvStopped.config.exposure_absolute ∧
             devAccept.accept Ctrl.exposure_abs
               (cIntOfQ (cfg0.exposure_absolute * 10000)) = false
          then drvStopped.config.exposure_absolute
          else cfg0.exposure_absolute,
        auto_focus :=
          if cfg0.auto_focus ≠ drvStopped.config.auto_focus ∧
             devAccept.accept Ctrl.focus_auto
               (if cfg0.auto_focus then 1 else 0) = false
          then drvStopped.config.auto_focus else cfg0.auto_focus,
        focus_absolute :=
          if cfg0.focus_absolute ≠ drvStopped.config.focus_absolute ∧
             devAccept.accept Ctrl.focus_abs cfg0.focus_absolute = false
          then drvStopped.config.focus_absolute else cfg0.focus_absolute,
        gain :=
          if cfg0.gain ≠ drvStopped.config.gain ∧
             devAccept.accept Ctrl.gain cfg0.gain = false
          then drvStopped.config.gain else cfg0.gain,
        iris_absolute :=
          if cfg0.iris_absolute ≠ drvStopped.config.iris_absolute ∧
             devAccept.accept Ctrl.iris_abs cfg0.iris_absolute = false
          then drvStopped.config.iris_absolute else cfg0.iris_absolute,
        brightness :=
          if cfg0.brightness ≠ drvStopped.config.brightness ∧
             devAccept.accept Ctrl.brightness cfg0.brightness = false
          then drvStopped.config.brightness else cfg0.brightness,
        pan_absolute :=
          if (cfg0.pan_absolute ≠ drvStopped.config.pan_absolute ∨
              cfg0.tilt_absolute ≠ drvStopped.config.tilt_absolute) ∧
             devAccept.acceptPantilt cfg0.pan_absolute
               cfg0.tilt_absolute = false
          then drvStopped.config.pan_absolute else cfg0.pan_absolute,
        tilt_absolute :=
          if (cfg0.pan_absolute ≠ drvStopped.config.pan_absolute ∨
              cfg0.tilt_absolute ≠ drvStopped.config.tilt_absolute) ∧
             devAccept.acceptPantilt cfg0.pan_absolute
               cfg0.tilt_absolute = false
          then drvStopped.config.tilt_absolute else cfg0.tilt_absolute } :=
  (reconfigure_baseline_commit devAccept drvStopped cfg0 0 rfl).2 rfl

/-- Witness for C3: a renegotiating reconfigure on a running driver
whose reopen fails starts with the close event, ends Stopped, and
issues no control writes. -/
theorem reconfigure_close_precedes_writes_witness :
    (ReconfigureCallback devNoOpen drvRun cfg0 3).2.head? =
      some Event.closeCamera ∧
    (ReconfigureCallback devNoOpen drvRun cfg0 3).1.state =
      State.kStopped ∧
    (ReconfigureCallback devNoOpen drvRun cfg0 3).2.countP isCtrlWrite =
      0 :=
  ⟨(reconfigure_close_precedes_writes devNoOpen drvRun cfg0 3 rfl rfl
      rfl).1,
   (reconfigure_close_precedes_writes devNoOpen drvRun cfg0 3 rfl rfl
      rfl).2 rfl⟩

/-- Witness for C4: the exposure-only reconfigure against an
all-accepting device issues the single write of 200 and commits 0.02. -/
theorem reconfigure_exposure_only_write_witness :
    (ReconfigureCallback devAccept drvRun
        { drvRun.config with exposure_absolute := 2 / 100 } 0).2.filter
        isCtrlWrite = [Event.setCtrl Ctrl.exposure_abs 200] ∧
    (ReconfigureCallback devAccept drvRun
        { drvRun.config with exposure_absolute := 2 / 100 }
        0).1.config.exposure_absolute =
      if devAccept.accept Ctrl.exposure_abs 200 then (2 / 100 : ℚ)
      else 1 / 100 :=
  reconfigure_exposure_only_write devAccept drvRun 0 rfl rfl (by decide)
    rfl

end LibuvcCamera